import Mathlib

/-!
Shallow embedding of `github_email_sender.py` (YouTube Family Plan monthly
email sender) and proofs about its message-composition and batch-delivery
routine.

The Python program is a class `GitHubEmailSender` built from environment
variables, a pure message composer `create_email_message`, a per-recipient
sender `send_email` that catches every transport exception, a batch loop
`send_monthly_emails`, and a `main` that exits nonzero on any shortfall.

Modelling conventions:
* `os.environ` is a function `String → Option String`.
* The SMTP transport is an oracle: a `Transport` record says for each of the
  four operations performed inside the `with smtplib.SMTP(...)` block
  (connect, starttls, login, send_message) whether it returns normally
  (`Except.ok ()`) or raises (`Except.error msg`).
* The batch run is instrumented: the Python function returns only a Bool,
  but the embedding also records the internal success tally, the recipients
  attempted and succeeded (in order), and every transport operation invoked,
  so that the spec's RunResult and "no transport call" statements are statable.
* The clock reading `datetime.now()` is passed in as a `Date` value.
-/

namespace YouTubeFamilyPlan

/-- The process environment, as read by `os.getenv`. -/
abbrev Env := String → Option String

/-- `os.getenv(key, dflt)`: the variable's value, or the default when unset. -/
def getenv (env : Env) (key dflt : String) : String :=
  (env key).getD dflt

/-- Value of a decimal digit string, most significant first. -/
def digitsToNat (ds : List Char) : Nat :=
  ds.foldl (fun n c => 10 * n + (c.toNat - 48)) 0

/-- Drop leading and trailing whitespace from a character list. -/
def stripWS (l : List Char) : List Char :=
  ((l.dropWhile Char.isWhitespace).reverse.dropWhile Char.isWhitespace).reverse

/-- Python's `int(s)` on a string: optional surrounding whitespace, an optional
sign, then a nonempty run of decimal digits; anything else raises `ValueError`,
modelled as `none`. (Underscore digit separators and non-ASCII digits accepted
by CPython are not modelled.) -/
def pyInt (s : String) : Option Int :=
  match stripWS s.toList with
  | [] => none
  | c :: rest =>
    let p : Int × List Char :=
      if c = '-' then (-1, rest) else if c = '+' then (1, rest) else (1, c :: rest)
    if p.2.isEmpty || !(p.2.all Char.isDigit) then none
    else some (p.1 * (digitsToNat p.2 : Int))

/-- The state set up by `GitHubEmailSender.__init__`: SMTP configuration from
the environment plus the hardcoded recipient list. `sender_email` and
`sender_password` are `Option` because `os.getenv` with no default returns
`None` when the variable is unset. -/
structure GitHubEmailSender where
  smtp_server : String
  smtp_port : Int
  sender_email : Option String
  sender_password : Option String
  recipients : List String
deriving Repr, DecidableEq

/-- The hardcoded recipient list assigned in `__init__`. -/
def defaultRecipients : List String :=
  ["azorlanac@gmail.com", "salongadaviid@gmail.com"]

/-- `GitHubEmailSender.__init__` run against an environment. `int(os.getenv(
'SMTP_PORT', '587'))` raises an uncaught `ValueError` when the value does not
parse, so construction is `none` exactly in that case; nothing else in
`__init__` can raise. -/
def GitHubEmailSender.init (env : Env) : Option GitHubEmailSender :=
  match pyInt (getenv env "SMTP_PORT" "587") with
  | none => none
  | some port => some
      { smtp_server := getenv env "SMTP_SERVER" "smtp.gmail.com"
        smtp_port := port
        sender_email := env "SENDER_EMAIL"
        sender_password := env "SENDER_PASSWORD"
        recipients := defaultRecipients }

/-- Python truthiness of an optional string: `None` and `""` are falsy. -/
def falsy : Option String → Bool
  | none => true
  | some s => s.isEmpty

/-- The credentials precondition tested at the top of `send_monthly_emails`:
`not self.sender_email or not self.sender_password`. -/
def credsMissing (s : GitHubEmailSender) : Bool :=
  falsy s.sender_email || falsy s.sender_password

/-- A clock reading, standing in for `datetime.now()`. -/
structure Date where
  year : Nat
  month : Nat
  day : Nat
deriving Repr, DecidableEq

/-- English month name, as produced by `strftime("%B")` for months 1..12. -/
def monthName : Nat → String
  | 1 => "January"
  | 2 => "February"
  | 3 => "March"
  | 4 => "April"
  | 5 => "May"
  | 6 => "June"
  | 7 => "July"
  | 8 => "August"
  | 9 => "September"
  | 10 => "October"
  | 11 => "November"
  | 12 => "December"
  | _ => ""

/-- `datetime.now().strftime("%B %Y")`: the human-readable month/year label. -/
def formatMonthYear (d : Date) : String :=
  monthName d.month ++ " " ++ toString d.year

/-- One attached body part (`MIMEText(content, subtype)`). -/
structure MIMEText where
  content : String
  subtype : String
deriving Repr, DecidableEq

/-- The composed message (`MIMEMultipart` with its headers and attached
parts). Constructed fresh per recipient and never mutated afterwards. -/
structure MIMEMultipart where
  fromHeader : String
  toHeader : String
  subjectHeader : String
  replyToHeader : String
  parts : List MIMEText
deriving Repr, DecidableEq

/-- `email.utils.formataddr((realname, address))` for a plain ASCII real name. -/
def formataddr (realname address : String) : String :=
  realname ++ " <" ++ address ++ ">"

/-- String interpolation of an optional string: Python renders `None` as
"None". (`create_email_message` is only reached after the credentials check,
so the address is present on every actual call.) -/
def pyStr : Option String → String
  | none => "None"
  | some s => s

/-- `get_breakdown_content`: the hardcoded YouTube Family Plan breakdown. -/
def get_breakdown_content (_ : GitHubEmailSender) : String :=
  "📋 Monthly Expense Breakdown\n\nTotal Monthly Cost: ₱379\nNumber of Members: 4\nPer Person Share: ₱94.75\n\n👥 Members & Shares\n---------------------------------\nName                 Share (₱)\n---------------------------------\nSophia Aguilar       94.75\nJeffrey Rosarito     94.75\nAzor Lanac           94.75\nDavid (Dab) Salonga  94.75\n\n💳 Payment Method\nGCash\nFrancis David Salonga\n📱 0998 850 2851"

/-- Modelled from the spec: the breakdown resource loader
(`read_breakdown_content`) is absent from `src/github_email_sender.py` — only
the unit tests in `src/test_email_sender.py` reference it. Per the spec, when
the on-disk breakdown file is present its raw contents are used verbatim, and
when it is absent a fixed "not found" placeholder is substituted instead of
failing the run; the placeholder string is the one the unit tests pin down.
The file system is passed in as `Option String` (the file's contents, `none`
when missing). -/
def read_breakdown_content (file : Option String) : String :=
  match file with
  | some content => content
  | none => "YouTube Family Plan Breakdown file not found."

/-- `self.subject.format(date=current_date)`: the subject template
"YouTube Family Plan - Monthly Payment Due (\x7bdate\x7d)" with its single
placeholder filled in. -/
def subjectLine (currentDate : String) : String :=
  "YouTube Family Plan - Monthly Payment Due (" ++ currentDate ++ ")"

/-- The literal text of the `html_body` f-string before `current_date`. -/
def htmlChunk1 : String :=
  "\n<html>\n<body style=\"font-family: Arial, sans-serif;\">\n    <p>Hello,</p>\n    \n    <p>This is your monthly reminder for the YouTube Family Plan payment due on the 20th of "

/-- The literal text of the `html_body` f-string between `current_date` and
`breakdown_content`. -/
def htmlChunk2 : String :=
  ".</p>\n    \n    <div style=\"background-color: #f5f5f5; padding: 15px; border-radius: 5px; font-family: monospace;\">\n        <pre style=\"margin: 0; font-family: monospace; white-space: pre-wrap;\">"

/-- The literal text of the `html_body` f-string after `breakdown_content`. -/
def htmlChunk3 : String :=
  "</pre>\n    </div>\n    \n    <p><strong>After sending payment, kindly send a screenshot via reply to this email or through messenger as confirmation.</strong></p>\n    \n    <p>Thank you!</p>\n    \n    <p>Best regards,<br>\n    YouTube Family Plan Manager</p>\n</body>\n</html>"

/-- The `html_body` f-string of `create_email_message`, a function of the two
interpolated values `current_date` and `breakdown_content`. -/
def html_body (currentDate breakdownContent : String) : String :=
  htmlChunk1 ++ currentDate ++ htmlChunk2 ++ breakdownContent ++ htmlChunk3

/-- The body of `create_email_message` with the breakdown text abstracted as
a parameter (the Python method obtains it by calling
`self.get_breakdown_content()` and interpolates it into `html_body`). -/
def create_email_message_with (s : GitHubEmailSender) (d : Date)
    (recipient breakdownContent : String) : MIMEMultipart :=
  let currentDate := formatMonthYear d
  { fromHeader := formataddr "David Salonga" (pyStr s.sender_email)
    toHeader := recipient
    subjectHeader := subjectLine currentDate
    replyToHeader := "YouTube Family Plan Manager <" ++ pyStr s.sender_email ++ ">"
    parts := [⟨html_body currentDate breakdownContent, "html"⟩] }

/-- `create_email_message(self, recipient)` at clock reading `d`. -/
def create_email_message (s : GitHubEmailSender) (d : Date)
    (recipient : String) : MIMEMultipart :=
  create_email_message_with s d recipient (get_breakdown_content s)

/-- The first attached part's payload, as the tests read it via
`message.get_payload()[0].get_payload()`. -/
def MIMEMultipart.body (m : MIMEMultipart) : String :=
  match m.parts with
  | [] => ""
  | p :: _ => p.content

/-- A byte-level rendering of the message: headers then parts, so that
equality of renderings states byte-identity. -/
def MIMEMultipart.render (m : MIMEMultipart) : String :=
  "From: " ++ m.fromHeader ++ "\nTo: " ++ m.toHeader ++ "\nSubject: "
    ++ m.subjectHeader ++ "\nReply-To: " ++ m.replyToHeader
    ++ String.join (m.parts.map fun p =>
        "\nContent-Type: text/" ++ p.subtype ++ "\n\n" ++ p.content)

/-- `hay` contains `needle` verbatim as a contiguous substring. -/
def strContains (hay needle : String) : Prop :=
  ∃ pre post : String, hay = pre ++ needle ++ post

deriving instance DecidableEq for Except

/-- Behaviour of one SMTP session for one send attempt: for each operation
performed inside the `with smtplib.SMTP(...)` block, whether it returns
normally or raises. -/
structure Transport where
  connect : Except String Unit
  starttls : Except String Unit
  login : Except String Unit
  send_message : Except String Unit
deriving Repr, DecidableEq

/-- The body of `send_email`'s `try`: `SMTP(...)` (connect), `starttls()`,
`login(...)`, `send_message(...)` in order, each aborting the block by
raising. -/
def transportAttempt (t : Transport) : Except String Unit :=
  match t.connect with
  | .error e => .error e
  | .ok _ =>
    match t.starttls with
    | .error e => .error e
    | .ok _ =>
      match t.login with
      | .error e => .error e
      | .ok _ => t.send_message

/-- Names of the transport operations, for call traces. -/
inductive TransportOp
  | connect
  | starttls
  | login
  | send_message
deriving Repr, DecidableEq

/-- The transport operations actually invoked during one send attempt: each
operation runs only if every earlier one returned normally; the operation
that raises is itself still invoked. -/
def transportCalls (t : Transport) : List TransportOp :=
  .connect ::
    match t.connect with
    | .error _ => []
    | .ok _ => .starttls ::
      match t.starttls with
      | .error _ => []
      | .ok _ => .login ::
        match t.login with
        | .error _ => []
        | .ok _ => [.send_message]

/-- `send_email(self, recipient, message)`: run the transport block; any
exception is caught by the bare `except Exception` and turned into `False`,
and `True` is returned only when the whole block completed without raising.
Totality of this Lean function is the "never propagates" guarantee. -/
def send_email (t : Transport) : Bool :=
  match transportAttempt t with
  | .ok _ => true
  | .error _ => false

/-- The loop state accumulated by the `for recipient in self.recipients`
loop, instrumented: the `success_count` tally, the recipients for which a
send was attempted and the ones that succeeded (both in loop order), and
every transport operation invoked. -/
structure LoopState where
  successCount : Nat
  attempted : List String
  succeeded : List String
  ops : List TransportOp
deriving Repr, DecidableEq

/-- The per-recipient loop of `send_monthly_emails`, by structural recursion
on the remaining recipients: compose a message for the head recipient,
attempt the send on that recipient's transport, record the outcome, and
continue with the rest regardless of the outcome. `transport r` is the SMTP
behaviour the network exhibits for recipient `r`'s session. -/
def processRecipients (transport : String → Transport) :
    List String → LoopState
  | [] => { successCount := 0, attempted := [], succeeded := [], ops := [] }
  | r :: rest =>
    let sent := send_email (transport r)
    let st := processRecipients transport rest
    { successCount := if sent then st.successCount + 1 else st.successCount
      attempted := r :: st.attempted
      succeeded := if sent then r :: st.succeeded else st.succeeded
      ops := transportCalls (transport r) ++ st.ops }

/-- The observable outcome of one batch run. The Python function returns only
`result`; the remaining fields instrument its internal tally (`success_count`
over `total_recipients`) and the transport calls made, for verification. -/
structure RunTrace where
  result : Bool
  successCount : Nat
  total : Nat
  attempted : List String
  succeeded : List String
  ops : List TransportOp
deriving Repr, DecidableEq

/-- `send_monthly_emails(self)`: abort with `False` when either credential is
missing or empty, before touching the network; otherwise run the
per-recipient loop and return whether every recipient succeeded
(`success_count == total_recipients`). -/
def send_monthly_emails (s : GitHubEmailSender)
    (transport : String → Transport) : RunTrace :=
  if credsMissing s then
    { result := false
      successCount := 0
      total := s.recipients.length
      attempted := []
      succeeded := []
      ops := [] }
  else
    let st := processRecipients transport s.recipients
    { result := st.successCount == s.recipients.length
      successCount := st.successCount
      total := s.recipients.length
      attempted := st.attempted
      succeeded := st.succeeded
      ops := st.ops }

/-- `main()`: construct the sender (an unparseable `SMTP_PORT` raises an
uncaught `ValueError`, terminating the process with exit code 1), run the
batch, and `exit(1)` unless it reported full success. The result is the
process exit code. -/
def mainExitCode (env : Env) (transport : String → Transport) : Nat :=
  match GitHubEmailSender.init env with
  | none => 1
  | some s => if (send_monthly_emails s transport).result then 0 else 1

/-- The internal `success_count` after the first `i` loop iterations: the loop
processes recipients left to right, so after `i` iterations exactly the first
`i` recipients have been handled. -/
def successCountAfter (transport : String → Transport) (rs : List String)
    (i : Nat) : Nat :=
  (processRecipients transport (rs.take i)).successCount

/-- A session in which every transport operation returns normally. -/
def okTransport : Transport :=
  { connect := .ok (), starttls := .ok (), login := .ok (), send_message := .ok () }

/-- A session in which submission raises (`send_message` fails). -/
def failTransport : Transport :=
  { connect := .ok (), starttls := .ok (), login := .ok (), send_message := .error "SMTP Error" }

/-- A sender state with both credentials present and two recipients. -/
def sampleSender : GitHubEmailSender :=
  { smtp_server := "smtp.gmail.com"
    smtp_port := 587
    sender_email := some "test@example.com"
    sender_password := some "test_password"
    recipients := ["a@x.com", "b@x.com"] }

/-- A network in which only the send to "b@x.com" fails. -/
def sampleTransport : String → Transport :=
  fun r => if r = "b@x.com" then failTransport else okTransport

/-- A sender state with both credentials unset. -/
def noCredsSender : GitHubEmailSender :=
  { smtp_server := "smtp.gmail.com"
    smtp_port := 587
    sender_email := none
    sender_password := none
    recipients := defaultRecipients }

/-- An environment providing only the two credentials. -/
def sampleEnv : Env := fun k =>
  if k = "SENDER_EMAIL" then some "test@example.com"
  else if k = "SENDER_PASSWORD" then some "test_password"
  else none

/-- The sender state that `__init__` builds from `sampleEnv`. -/
def initSender : GitHubEmailSender :=
  { smtp_server := "smtp.gmail.com"
    smtp_port := 587
    sender_email := some "test@example.com"
    sender_password := some "test_password"
    recipients := defaultRecipients }

/-- An environment whose SMTP_PORT value does not parse as an integer. -/
def badPortEnv : Env := fun k =>
  if k = "SMTP_PORT" then some "not-a-number" else none

/-- The empty environment: every variable unset. -/
def emptyEnv : Env := fun _ => none

/-- A fixed clock reading used by the witnesses. -/
def sampleDate : Date := { year := 2026, month := 10, day := 12 }

theorem processRecipients_successCount (transport : String → Transport)
    (rs : List String) :
    (processRecipients transport rs).successCount =
      (rs.filter (fun r => send_email (transport r))).length := by
  induction rs with
  | nil => rfl
  | cons r rest ih =>
    cases h : send_email (transport r) <;>
      simp [processRecipients, List.filter_cons, h, ih]

theorem processRecipients_attempted (transport : String → Transport)
    (rs : List String) :
    (processRecipients transport rs).attempted = rs := by
  induction rs with
  | nil => rfl
  | cons r rest ih => simp [processRecipients, ih]

theorem processRecipients_succeeded (transport : String → Transport)
    (rs : List String) :
    (processRecipients transport rs).succeeded =
      rs.filter (fun r => send_email (transport r)) := by
  induction rs with
  | nil => rfl
  | cons r rest ih =>
    cases h : send_email (transport r) <;>
      simp [processRecipients, List.filter_cons, h, ih]

theorem send_filter_split (transport : String → Transport) (rs : List String) :
    (rs.filter (fun r => send_email (transport r))).length +
      (rs.filter (fun r => !send_email (transport r))).length = rs.length := by
  induction rs with
  | nil => rfl
  | cons r rest ih =>
    cases h : send_email (transport r) <;>
      simp [List.filter_cons, h] <;> omega

/-- Claim C2: whenever the sender address or the sender secret is absent or
empty, the batch run aborts immediately with a failure result whose success
count is 0 and whose total is the length of the recipient list, and no
transport operation (connect, starttls, login, or submit) is invoked for any
recipient. -/
theorem claim2_abort_without_credentials (s : GitHubEmailSender)
    (transport : String → Transport) (h : credsMissing s = true) :
    send_monthly_emails s transport =
      { result := false
        successCount := 0
        total := s.recipients.length
        attempted := []
        succeeded := []
        ops := [] } := by
  simp [send_monthly_emails, h]

theorem claim2_abort_without_credentials_witness :
    credsMissing noCredsSender = true ∧
    send_monthly_emails noCredsSender (fun _ => okTransport) =
      { result := false
        successCount := 0
        total := noCredsSender.recipients.length
        attempted := []
        succeeded := []
        ops := [] } :=
  ⟨by decide,
   claim2_abort_without_credentials noCredsSender (fun _ => okTransport) (by decide)⟩

/-- Claim C9: the per-recipient send operation is total over transport
faults: it returns `true` exactly when connect, starttls, login and
submission all complete without raising, and returns `false` exactly when
some operation of the session raised; being a total `Bool`-valued function,
it never propagates an exception to its caller. -/
theorem claim9_send_email_total (t : Transport) :
    (send_email t = true ↔
      t.connect = .ok () ∧ t.starttls = .ok () ∧ t.login = .ok () ∧
        t.send_message = .ok ()) ∧
    (send_email t = false ↔ ∃ e, transportAttempt t = .error e) := by
  obtain ⟨c, st, lg, sm⟩ := t
  cases c with
  | error e => simp [send_email, transportAttempt, Except.bind]
  | ok u =>
    cases u
    cases st with
    | error e => simp [send_email, transportAttempt, Except.bind]
    | ok u =>
      cases u
      cases lg with
      | error e => simp [send_email, transportAttempt, Except.bind]
      | ok u =>
        cases u
        cases sm with
        | error e => simp [send_email, transportAttempt, Except.bind]
        | ok u => cases u; simp [send_email, transportAttempt, Except.bind]

/-- Claim C4: when the breakdown resource is unavailable (the file is
missing), composition still returns a message addressed to the recipient
whose body contains the fixed "not found" placeholder in place of the
breakdown; being a total function, it never raises, so the run continues. -/
theorem claim4_missing_resource_placeholder (s : GitHubEmailSender)
    (d : Date) (r : String) :
    (create_email_message_with s d r (read_breakdown_content none)).toHeader = r ∧
    (create_email_message_with s d r (read_breakdown_content none)).parts.length = 1 ∧
    strContains
      (create_email_message_with s d r (read_breakdown_content none)).body
      "YouTube Family Plan Breakdown file not found." :=
  ⟨rfl, rfl,
   ⟨htmlChunk1 ++ formatMonthYear d ++ htmlChunk2, htmlChunk3, rfl⟩⟩

/-- Claim C3: composition is a pure function of its inputs: given the same
recipient, the same clock reading and the same sender address (the only piece
of sender state it reads), it produces equal messages, and in particular
byte-identical renderings; composing twice with identical inputs is the
special case `s₁ = s₂`. -/
theorem claim3_compose_pure (s₁ s₂ : GitHubEmailSender) (d : Date)
    (r : String) (h : s₁.sender_email = s₂.sender_email) :
    create_email_message s₁ d r = create_email_message s₂ d r ∧
    (create_email_message s₁ d r).render =
      (create_email_message s₂ d r).render := by
  have heq : create_email_message s₁ d r = create_email_message s₂ d r := by
    unfold create_email_message create_email_message_with get_breakdown_content
    rw [h]
  exact ⟨heq, by rw [heq]⟩

theorem claim3_compose_pure_witness :
    sampleSender.sender_email = sampleSender.sender_email ∧
    (create_email_message sampleSender sampleDate "a@x.com" =
       create_email_message sampleSender sampleDate "a@x.com" ∧
     (create_email_message sampleSender sampleDate "a@x.com").render =
       (create_email_message sampleSender sampleDate "a@x.com").render) :=
  ⟨rfl, claim3_compose_pure sampleSender sampleSender sampleDate "a@x.com" rfl⟩

/-- Claim C7: for every non-empty breakdown text, recipient and date, the
composed message's body contains the breakdown verbatim and its subject
contains the month/year label derived from the date. -/
theorem claim7_body_and_subject (s : GitHubEmailSender) (d : Date)
    (r B : String) (_hB : B ≠ "") :
    strContains (create_email_message_with s d r B).body B ∧
    strContains (create_email_message_with s d r B).subjectHeader
      (formatMonthYear d) :=
  ⟨⟨htmlChunk1 ++ formatMonthYear d ++ htmlChunk2, htmlChunk3, rfl⟩,
   ⟨"YouTube Family Plan - Monthly Payment Due (", ")", rfl⟩⟩

theorem claim7_body_and_subject_witness :
    "Test breakdown" ≠ "" ∧
    (strContains
       (create_email_message_with sampleSender sampleDate "a@x.com"
         "Test breakdown").body "Test breakdown" ∧
     strContains
       (create_email_message_with sampleSender sampleDate "a@x.com"
         "Test breakdown").subjectHeader (formatMonthYear sampleDate)) :=
  ⟨by decide,
   claim7_body_and_subject sampleSender sampleDate "a@x.com" "Test breakdown"
     (by decide)⟩

/-- Claim C1: with credentials present, if exactly `k` of the `n`
per-recipient sends fail, the batch run's success count is `n - k`, its
total is `n`, and it reports overall success (`success_count ==
total_recipients`) exactly when `k = 0`. -/
theorem claim1_run_tally (s : GitHubEmailSender)
    (transport : String → Transport) (k : Nat) (h : credsMissing s = false)
    (hk : k = (s.recipients.filter (fun r => !send_email (transport r))).length) :
    (send_monthly_emails s transport).successCount = s.recipients.length - k ∧
    (send_monthly_emails s transport).total = s.recipients.length ∧
    ((send_monthly_emails s transport).result = true ↔ k = 0) := by
  subst hk
  have hsplit := send_filter_split transport s.recipients
  simp [send_monthly_emails, h, processRecipients_successCount]
  omega

theorem claim1_run_tally_witness :
    credsMissing sampleSender = false ∧
    1 = (sampleSender.recipients.filter
          (fun r => !send_email (sampleTransport r))).length ∧
    ((send_monthly_emails sampleSender sampleTransport).successCount =
        sampleSender.recipients.length - 1 ∧
      (send_monthly_emails sampleSender sampleTransport).total =
        sampleSender.recipients.length ∧
      ((send_monthly_emails sampleSender sampleTransport).result = true ↔
        1 = 0)) :=
  ⟨by decide, by decide,
   claim1_run_tally sampleSender sampleTransport 1 (by decide) (by decide)⟩

/-- Claim C5: with credentials present, the batch run attempts every
recipient of the list, in list order, whatever the transport outcomes are —
so one recipient's failure never prevents a later attempt — and the recorded
successes are exactly the recipients whose own send succeeded. -/
theorem claim5_sequential_independent (s : GitHubEmailSender)
    (transport : String → Transport) (h : credsMissing s = false) :
    (send_monthly_emails s transport).attempted = s.recipients ∧
    (send_monthly_emails s transport).succeeded =
      s.recipients.filter (fun r => send_email (transport r)) := by
  simp [send_monthly_emails, h, processRecipients_attempted,
    processRecipients_succeeded]

theorem claim5_sequential_independent_witness :
    credsMissing sampleSender = false ∧
    ((send_monthly_emails sampleSender sampleTransport).attempted =
        sampleSender.recipients ∧
      (send_monthly_emails sampleSender sampleTransport).succeeded =
        sampleSender.recipients.filter
          (fun r => send_email (sampleTransport r))) :=
  ⟨by decide,
   claim5_sequential_independent sampleSender sampleTransport (by decide)⟩

/-- Claim C8: the `success_count` tally of the batch loop starts at 0, never
decreases, grows by at most 1 per recipient processed, stays at most the
total number of recipients at every iteration, and after the last iteration
is exactly the loop's final count. -/
theorem claim8_tally_invariant (transport : String → Transport)
    (rs : List String) :
    successCountAfter transport rs 0 = 0 ∧
    (∀ i, successCountAfter transport rs i ≤
        successCountAfter transport rs (i + 1) ∧
      successCountAfter transport rs (i + 1) ≤
        successCountAfter transport rs i + 1 ∧
      successCountAfter transport rs i ≤ rs.length) ∧
    successCountAfter transport rs rs.length =
      (processRecipients transport rs).successCount := by
  have key : ∀ i, successCountAfter transport rs i =
      ((rs.take i).filter (fun r => send_email (transport r))).length :=
    fun i => processRecipients_successCount transport (rs.take i)
  refine ⟨rfl, ?_, by unfold successCountAfter; rw [List.take_length]⟩
  intro i
  have hstep : rs.take (i + 1) = rs.take i ++ rs[i]?.toList := List.take_succ
  have hextra :
      ((rs[i]?.toList).filter (fun r => send_email (transport r))).length ≤ 1 := by
    cases hc : rs[i]? with
    | none => simp
    | some a => cases hp : send_email (transport a) <;>
        simp [List.filter_cons, hp]
  have hbound :
      ((rs.take i).filter (fun r => send_email (transport r))).length ≤
        rs.length := by
    calc ((rs.take i).filter (fun r => send_email (transport r))).length
        ≤ (rs.take i).length := List.length_filter_le _ _
      _ ≤ rs.length := by rw [List.length_take]; omega
  simp only [key, hstep, List.filter_append, List.length_append]
  omega

/-- Claim C6: given a successfully constructed sender, the process exits
with code 0 exactly when the credentials are present and every recipient's
send succeeded, and otherwise (any failed send, or missing credentials)
exits with the non-zero code 1. -/
theorem claim6_exit_code (env : Env) (transport : String → Transport)
    (s : GitHubEmailSender) (h : GitHubEmailSender.init env = some s) :
    (mainExitCode env transport = 0 ↔
      credsMissing s = false ∧
        ∀ r ∈ s.recipients, send_email (transport r) = true) ∧
    (mainExitCode env transport = 0 ∨ mainExitCode env transport = 1) := by
  cases hb : credsMissing s with
  | true =>
    constructor
    · simp [mainExitCode, h, send_monthly_emails, hb]
    · simp [mainExitCode, h, send_monthly_emails, hb]
  | false =>
    have hcount := processRecipients_successCount transport s.recipients
    have hfull :
        (s.recipients.filter (fun r => send_email (transport r))).length =
            s.recipients.length ↔
          ∀ r ∈ s.recipients, send_email (transport r) = true := by
      constructor
      · intro hl r hr
        have heq :=
          (List.filter_sublist (l := s.recipients)
            (p := fun r => send_email (transport r))).eq_of_length hl
        exact List.filter_eq_self.mp heq r hr
      · intro hall
        rw [List.filter_eq_self.mpr hall]
    constructor
    · constructor
      · intro h0
        refine ⟨rfl, hfull.mp ?_⟩
        by_contra hne
        simp [mainExitCode, h, send_monthly_emails, hb, hcount, hne] at h0
      · rintro ⟨-, hall⟩
        have hlen := hfull.mpr hall
        simp [mainExitCode, h, send_monthly_emails, hb, hcount, hlen]
    · by_cases hq :
        (s.recipients.filter (fun r => send_email (transport r))).length =
          s.recipients.length
      · left
        simp [mainExitCode, h, send_monthly_emails, hb, hcount, hq]
      · right
        simp [mainExitCode, h, send_monthly_emails, hb, hcount, hq]

theorem claim6_exit_code_witness :
    GitHubEmailSender.init sampleEnv = some initSender ∧
    ((mainExitCode sampleEnv (fun _ => okTransport) = 0 ↔
       credsMissing initSender = false ∧
         ∀ r ∈ initSender.recipients,
           send_email ((fun _ => okTransport) r) = true) ∧
     (mainExitCode sampleEnv (fun _ => okTransport) = 0 ∨
       mainExitCode sampleEnv (fun _ => okTransport) = 1)) :=
  ⟨by decide,
   claim6_exit_code sampleEnv (fun _ => okTransport) initSender (by decide)⟩

/-- Claim C10: when SMTP_PORT is unset, construction succeeds and the port
defaults to 587; when SMTP_PORT is set to a string `int()` cannot parse, the
`ValueError` raised inside `__init__` is uncaught, so no sender is
constructed — hence no message is composed and no network action attempted. -/
theorem claim10_smtp_port (env : Env) :
    (env "SMTP_PORT" = none →
      ∃ s, GitHubEmailSender.init env = some s ∧ s.smtp_port = 587) ∧
    ∀ v, env "SMTP_PORT" = some v → pyInt v = none →
      GitHubEmailSender.init env = none := by
  constructor
  · intro hu
    have h587 : pyInt (getenv env "SMTP_PORT" "587") = some 587 := by
      unfold getenv
      rw [hu]
      decide
    exact ⟨{ smtp_server := getenv env "SMTP_SERVER" "smtp.gmail.com"
             smtp_port := 587
             sender_email := env "SENDER_EMAIL"
             sender_password := env "SENDER_PASSWORD"
             recipients := defaultRecipients },
           by unfold GitHubEmailSender.init; rw [h587], rfl⟩
  · intro v hv hp
    have hnone : pyInt (getenv env "SMTP_PORT" "587") = none := by
      unfold getenv
      rw [hv]
      simpa using hp
    unfold GitHubEmailSender.init
    rw [hnone]

theorem claim10_smtp_port_witness :
    emptyEnv "SMTP_PORT" = none ∧
    badPortEnv "SMTP_PORT" = some "not-a-number" ∧
    pyInt "not-a-number" = none ∧
    (∃ s, GitHubEmailSender.init emptyEnv = some s ∧ s.smtp_port = 587) ∧
    GitHubEmailSender.init badPortEnv = none :=
  ⟨rfl, rfl, by decide,
   (claim10_smtp_port emptyEnv).1 rfl,
   (claim10_smtp_port badPortEnv).2 "not-a-number" rfl (by decide)⟩

end YouTubeFamilyPlan
